import Mathlib

/-!
Shallow embedding of the greetings-chatgpt relay bot.

Embedded here, translated from src/src/bot_state.rs and src/src/main.rs:
the session data model (`DialogueState`), the SQLite-backed session store
(`update_dialogue`, `get_dialogue`, `remove_dialogue`), the administrative
credential-issuance operation (`insert_api_key`), the serde_json text
encoding of conversation history used by the store (`historyToJson`,
`parseHistory`), and the two message handlers (`request_api_key`,
`conversation`).

Conventions of the embedding:
* The SQLite database is modelled as in-memory association lists (`Db`).
  Database faults and startup migrations are outside the model, so a SQL
  statement the engine executes successfully is modelled as returning `.ok`;
  the only modelled `.db` error is the uniqueness-constraint violation on
  a duplicate user insert.
* The Keccak-256 digest of the `sha3` crate is an external collaborator;
  every definition is parametrised over an arbitrary `digest` function, so
  every theorem holds for the real digest in particular (none of the
  verified properties depends on the digest's internals).
* serde_json's text encoding of `Vec<ChatMessage>` is modelled by
  `historyToJson` (exactly the canonical text serde_json emits, including
  its string-escaping rules) and `parseHistory` (a parser accepting that
  canonical encoding; serde_json's parser accepts a superset and agrees
  with it on the canonical texts).
* Transport sends (Telegram) always succeed in the model and are collected
  in the `sent` field of a handler's output; the liveness-indicator task is
  pure I/O repetition and is not modelled.
-/

/-- Role of a chat message (chatgpt crate `Role`, serialised lowercase). -/
inductive Role where
  | system
  | user
  | assistant
deriving DecidableEq, Repr

/-- One history entry: chatgpt crate `ChatMessage` with fields `role` and
`content`, in that declaration order (which fixes the serde field order). -/
structure ChatMessage where
  role : Role
  content : String
deriving DecidableEq, Repr

/-- Model versions: chatgpt crate `ChatGPTEngine`, restricted to the variants
the repository's code constructs or parses. -/
inductive ChatGPTEngine where
  | gpt35Turbo
  | gpt35Turbo_0301
  | gpt4
  | gpt4_32k
  | gpt4_0314
  | gpt4_32k_0314
deriving DecidableEq, Repr

/-- The string `version.as_ref()` produces for each engine (chatgpt crate
`AsRef of str` impl); this is what `update_dialogue` stores. -/
def ChatGPTEngine.toStr : ChatGPTEngine → String
  | .gpt35Turbo => "gpt-3.5-turbo"
  | .gpt35Turbo_0301 => "gpt-3.5-turbo-0301"
  | .gpt4 => "gpt-4"
  | .gpt4_32k => "gpt-4-32k"
  | .gpt4_0314 => "gpt-4-0314"
  | .gpt4_32k_0314 => "gpt-4-32k-0314"

/-- The `match row.version.as_str()` in `get_dialogue` (bot_state.rs lines
129-137): the six recognised strings map to their engines and every other
string falls through the `_custom` arm to `Gpt35Turbo`. -/
def parseEngine (s : String) : ChatGPTEngine :=
  if s = "gpt-3.5-turbo" then .gpt35Turbo
  else if s = "gpt-3.5-turbo-0301" then .gpt35Turbo_0301
  else if s = "gpt-4" then .gpt4
  else if s = "gpt-4-32k" then .gpt4_32k
  else if s = "gpt-4-0314" then .gpt4_0314
  else if s = "gpt-4-32k-0314" then .gpt4_32k_0314
  else .gpt35Turbo

/-- The session state enum `DialogueState` of bot_state.rs. -/
inductive DialogueState where
  | apiKeyRequest
  | registration (api_key : String)
  | conversation (history : List ChatMessage) (version : ChatGPTEngine)
deriving DecidableEq, Repr

/-! ## UTF-8 and the 10-byte key prefix -/

/-- Standard UTF-8 encoding of one code point, as a list of byte values. -/
def utf8Bytes (c : Char) : List Nat :=
  let n := c.toNat
  if n < 128 then [n]
  else if n < 2048 then [192 + n / 64, 128 + n % 64]
  else if n < 65536 then [224 + n / 4096, 128 + n / 64 % 64, 128 + n % 64]
  else [240 + n / 262144, 128 + n / 4096 % 64, 128 + n / 64 % 64, 128 + n % 64]

/-- The UTF-8 bytes of a string (`api_key.as_bytes()` in Rust). -/
def strBytes (s : String) : List Nat :=
  (s.data.map utf8Bytes).flatten

/-- `api_key.as_bytes().iter().take(10)`: the stored 10-byte key prefix
(bot_state.rs line 74 and main.rs line 165). -/
def pfx10 (s : String) : List Nat :=
  (strBytes s).take 10

/-! ## serde_json encoding of the history (serialisation side) -/

/-- Lowercase hexadecimal digit, as serde_json uses in its escape sequences. -/
def hexDigitChar (n : Nat) : Char :=
  if n < 10 then Char.ofNat (48 + n) else Char.ofNat (87 + n)

/-- serde_json's escaping of one character inside a JSON string: quote and
backslash get a backslash escape, the five named control characters get their
short escapes, the remaining control characters get a 4-digit hex escape, and
everything else is emitted literally. -/
def escapeChar (c : Char) : List Char :=
  if c = '"' then ['\\', '"']
  else if c = '\\' then ['\\', '\\']
  else if c = '\x08' then ['\\', 'b']
  else if c = '\x09' then ['\\', 't']
  else if c = '\x0a' then ['\\', 'n']
  else if c = '\x0c' then ['\\', 'f']
  else if c = '\x0d' then ['\\', 'r']
  else if c.toNat < 32 then
    ['\\', 'u', '0', '0', hexDigitChar (c.toNat / 16), hexDigitChar (c.toNat % 16)]
  else [c]

/-- Escape every character of a string body. -/
def escapeString : List Char → List Char
  | [] => []
  | c :: cs => escapeChar c ++ escapeString cs

/-- A complete JSON string literal: quote, escaped body, quote. -/
def encodeStringChars (l : List Char) : List Char :=
  '"' :: (escapeString l ++ ['"'])

/-- serde's lowercase serialisation of `Role`. -/
def Role.toStr : Role → String
  | .system => "system"
  | .user => "user"
  | .assistant => "assistant"

/-- The characters serde_json emits before the role string of a message
object (an opening brace then the quoted `role` key and a colon). -/
def roleKey : List Char := '\x7b' :: "\"role\":".data

/-- The characters between the role string and the content string (a comma
then the quoted `content` key and a colon). -/
def contentKey : List Char := ",\"content\":".data

/-- serde_json's text for one `ChatMessage` object. -/
def msgChars (m : ChatMessage) : List Char :=
  roleKey ++ encodeStringChars m.role.toStr.data ++
    contentKey ++ encodeStringChars m.content.data ++ ['\x7d']

/-- Comma-separated message objects. -/
def itemsChars : List ChatMessage → List Char
  | [] => []
  | [m] => msgChars m
  | m :: ms => msgChars m ++ ',' :: itemsChars ms

/-- serde_json's array text for a whole history. -/
def historyJsonChars (h : List ChatMessage) : List Char :=
  '[' :: (itemsChars h ++ [']'])

/-- Model of `serde_json::to_string` on `Vec<ChatMessage>` (bot_state.rs
line 95): the canonical compact JSON text of the history. -/
def historyToJson (h : List ChatMessage) : String :=
  ⟨historyJsonChars h⟩

/-! ## serde_json decoding of the history (deserialisation side) -/

/-- Value of one hexadecimal digit character (JSON accepts both cases). -/
def hexVal (c : Char) : Option Nat :=
  if 48 ≤ c.toNat ∧ c.toNat ≤ 57 then some (c.toNat - 48)
  else if 97 ≤ c.toNat ∧ c.toNat ≤ 102 then some (c.toNat - 87)
  else if 65 ≤ c.toNat ∧ c.toNat ≤ 70 then some (c.toNat - 55)
  else none

/-- The single-character JSON escapes. -/
def shortEscape (e : Char) : Option Char :=
  if e = '"' then some '"'
  else if e = '\\' then some '\\'
  else if e = '/' then some '/'
  else if e = 'b' then some '\x08'
  else if e = 't' then some '\x09'
  else if e = 'n' then some '\x0a'
  else if e = 'f' then some '\x0c'
  else if e = 'r' then some '\x0d'
  else none

/-- Parse the body of a JSON string up to and including its closing quote,
returning the decoded characters and the remaining input. -/
def parseStringBody : List Char → Option (List Char × List Char)
  | [] => none
  | c :: rest =>
    if c = '"' then some ([], rest)
    else if c = '\\' then
      match rest with
      | [] => none
      | e :: rest2 =>
        if e = 'u' then
          match rest2 with
          | a :: b :: c2 :: d :: rest3 =>
            match hexVal a, hexVal b, hexVal c2, hexVal d with
            | some x, some y, some z, some w =>
              (parseStringBody rest3).map fun p =>
                (Char.ofNat (((x * 16 + y) * 16 + z) * 16 + w) :: p.1, p.2)
            | _, _, _, _ => none
          | _ => none
        else
          match shortEscape e with
          | some ch => (parseStringBody rest2).map fun p => (ch :: p.1, p.2)
          | none => none
    else if c.toNat < 32 then none
    else (parseStringBody rest).map fun p => (c :: p.1, p.2)

/-- Parse a complete JSON string literal. -/
def parseJsonString : List Char → Option (String × List Char)
  | '"' :: rest => (parseStringBody rest).map fun p => (⟨p.1⟩, p.2)
  | _ => none

/-- serde's deserialisation of `Role` from its lowercase name. -/
def parseRole (s : String) : Option Role :=
  if s = "system" then some .system
  else if s = "user" then some .user
  else if s = "assistant" then some .assistant
  else none

/-- Consume an expected literal character sequence. -/
def dropLit : List Char → List Char → Option (List Char)
  | [], cs => some cs
  | p :: ps, c :: cs => if c = p then dropLit ps cs else none
  | _ :: _, [] => none

/-- Parse one `ChatMessage` object of the canonical encoding. -/
def parseMessage (cs : List Char) : Option (ChatMessage × List Char) :=
  (dropLit roleKey cs).bind fun cs1 =>
  (parseJsonString cs1).bind fun rc =>
  (parseRole rc.1).bind fun role =>
  (dropLit contentKey rc.2).bind fun cs3 =>
  (parseJsonString cs3).bind fun cc =>
  match cc.2 with
  | c :: cs5 => if c = '\x7d' then some (⟨role, cc.1⟩, cs5) else none
  | [] => none

/-- Parse a non-empty comma-separated sequence of message objects; the fuel
bounds the number of items (any fuel past the item count is enough). -/
def parseItems : Nat → List Char → Option (List ChatMessage × List Char)
  | 0, _ => none
  | fuel + 1, cs =>
    (parseMessage cs).bind fun mc =>
      match mc.2 with
      | ',' :: cs3 => (parseItems fuel cs3).map fun p => (mc.1 :: p.1, p.2)
      | _ => some ([mc.1], mc.2)

/-- Parse a whole history array from characters. -/
def parseHistoryAux : List Char → Option (List ChatMessage)
  | '[' :: rest =>
    if rest = [']'] then some []
    else
      (parseItems rest.length rest).bind fun p =>
        if p.2 = [']'] then some p.1 else none
  | _ => none

/-- Model of `serde_json::from_str` on `Vec<ChatMessage>` (bot_state.rs
line 128), on the canonical text encoding. -/
def parseHistory (s : String) : Option (List ChatMessage) :=
  parseHistoryAux s.data

/-! ## The database and the `Storage` implementation of `BotState` -/

/-- One row of the `users` table. The migrations directory is not under src;
the row layout is taken from the columns the queries in bot_state.rs name.
Modelled from the spec: the schema's default for the version column is the
documented default engine string (`defaultVersion`). -/
structure UserRow where
  current_prompt : String
  history : String
  api_key_pfx : List Nat
  version : String
deriving DecidableEq, Repr

/-- The database: a `users` table keyed by chat identity and an `api_keys`
allow-list of (key hash, key prefix) byte-vector pairs. -/
structure Db where
  users : List (Int × UserRow)
  api_keys : List (List Nat × List Nat)
deriving DecidableEq, Repr

/-- Modelled from the spec: the migrations (users-table schema) are not under
src; the spec fixes gpt-3.5-turbo as the documented default engine, so a row
created without an explicit version carries this string. -/
def defaultVersion : String := "gpt-3.5-turbo"

/-- The storage error enum of bot_state.rs (startup-only `Migration` faults
are outside the model). -/
inductive StoreError where
  | historyCorrupted
  | db
deriving DecidableEq, Repr

/-- Row lookup by chat identity (the `WHERE "chat_id" = ?` clauses). -/
def findUser (db : Db) (chat_id : Int) : Option (Int × UserRow) :=
  db.users.find? fun r => r.1 == chat_id

/-- `Storage::update_dialogue` of bot_state.rs (lines 64-111).
`ApiKeyRequest` writes nothing and succeeds. `Registration` runs the
verifying insert: `INSERT INTO users ... SELECT ... WHERE EXISTS(SELECT *
FROM api_keys WHERE key_hash = ? AND key_prefix = ?)` — when the (hash,
prefix) pair is absent from the allow-list the insert affects zero rows and
the call still succeeds; when it is present, a fresh row with empty history
text and the schema-default version is inserted (a duplicate chat identity
would violate the key constraint: `.db`). `Conversation` runs the UPDATE
that overwrites the history text and version string of the chat's row. -/
def update_dialogue (digest : String → List Nat) (db : Db) (chat_id : Int)
    (dialogue : DialogueState) : Except StoreError Db :=
  match dialogue with
  | .apiKeyRequest => .ok db
  | .registration api_key =>
    let api_hash := digest api_key
    let api_pfx := pfx10 api_key
    if (api_hash, api_pfx) ∈ db.api_keys then
      match findUser db chat_id with
      | some _ => .error .db
      | none =>
        .ok { db with users := db.users ++ [(chat_id, ⟨"", "[]", api_pfx, defaultVersion⟩)] }
    else .ok db
  | .conversation history version =>
    let history_json := historyToJson history
    .ok { db with
          users := db.users.map fun r =>
            if r.1 == chat_id then
              (r.1, { r.2 with history := history_json, version := version.toStr })
            else r }

/-- `Storage::get_dialogue` of bot_state.rs (lines 113-142): absence of a row
is `Ok(None)`; a row deserialises its history (a parse failure is the
distinct `HistoryCorrupted` error) and resolves its version string. -/
def get_dialogue (db : Db) (chat_id : Int) : Except StoreError (Option DialogueState) :=
  match findUser db chat_id with
  | none => .ok none
  | some r =>
    match parseHistory r.2.history with
    | none => .error .historyCorrupted
    | some history => .ok (some (.conversation history (parseEngine r.2.version)))

/-- `Storage::remove_dialogue` of bot_state.rs (lines 51-62): DELETE the
chat's row; deleting an absent row succeeds. -/
def remove_dialogue (db : Db) (chat_id : Int) : Except StoreError Db :=
  .ok { db with users := db.users.filter fun r => !(r.1 == chat_id) }

/-- `insert_api_key` of main.rs (lines 162-176): the administrative
credential-issuance operation appends the (Keccak hash, 10-byte prefix)
verification tuple of the key to the allow-list. -/
def insert_api_key (digest : String → List Nat) (api_key : String) (db : Db) : Db :=
  { db with api_keys := db.api_keys ++ [(digest api_key, pfx10 api_key)] }

/-! ## The message handlers of main.rs -/

/-- Failure values a handler can return (the Rust handlers box their errors;
the variants are the distinct error strings and propagated error kinds). -/
inductive HandlerErr where
  | storage (e : StoreError)
  | internalError
  | noText
  | wrongApiKey
  | chatGpt (e : String)
deriving DecidableEq, Repr

/-- Output of `request_api_key`: the database afterwards, the transport
messages sent, and the handler's returned result. -/
structure RegOut where
  db : Db
  sent : List String
  result : Except HandlerErr Unit
deriving Repr

/-- `request_api_key` of main.rs (lines 30-56): the message text is the
candidate key; the handler performs the verifying put and reports success or
rejection to the user. The leading `dialogue.get().await?` trace call only
propagates storage errors (get is pure in the model, so it is consulted
once). -/
def request_api_key (digest : String → List Nat) (db : Db) (chat_id : Int)
    (msgText : Option String) : RegOut :=
  match get_dialogue db chat_id with
  | .error e => ⟨db, [], .error (.storage e)⟩
  | .ok _ =>
    match msgText with
    | none => ⟨db, [], .error .noText⟩
    | some api_key =>
      match update_dialogue digest db chat_id (.registration api_key) with
      | .ok db2 => ⟨db2, ["Success! You can start conversation!"], .ok ()⟩
      | .error _ => ⟨db, ["API Key not working, please try again!"], .error .wrongApiKey⟩

/-- Output of `conversation`: the database afterwards, the transport
messages sent, how many completion-service calls were made, and the
handler's returned result. -/
structure ConvOut where
  db : Db
  sent : List String
  completionCalls : Nat
  result : Except HandlerErr Unit
deriving Repr

/-- Rust `str::starts_with` on string patterns. -/
def startsWithStr (s p : String) : Bool := p.data.isPrefixOf s.data

/-- `conversation` of main.rs (lines 58-160). The session must load as
`Conversation`; command prefixes are tried in source order; an ordinary
message goes to the completion service. `complete` is the external
completion collaborator, modelled from the spec: on success it yields the
assistant reply, and the chatgpt crate's `Conversation` then holds the old
history extended by the user turn and that assistant turn, which is what the
handler persists; on failure the handler persists nothing, notifies the user
of the recovery commands and propagates the failure. -/
def conversation (digest : String → List Nat) (db : Db) (chat_id : Int)
    (msgText : Option String)
    (complete : List ChatMessage → ChatGPTEngine → String → Except String String) : ConvOut :=
  match get_dialogue db chat_id with
  | .error e => ⟨db, [], 0, .error (.storage e)⟩
  | .ok st =>
    match st with
    | some (.conversation history version) =>
      match msgText with
      | none => ⟨db, [], 0, .error .noText⟩
      | some msg =>
        if startsWithStr msg "/reset" then
          match update_dialogue digest db chat_id (.conversation [] version) with
          | .error e => ⟨db, [], 0, .error (.storage e)⟩
          | .ok db2 => ⟨db2, ["✖️ History Reseted"], 0, .ok ()⟩
        else if startsWithStr msg "/tail" then
          match update_dialogue digest db chat_id (.conversation (history.drop 1) version) with
          | .error e => ⟨db, [], 0, .error (.storage e)⟩
          | .ok db2 => ⟨db2, ["✖️ Take Tail"], 0, .ok ()⟩
        else if startsWithStr msg "/gpt3" then
          match update_dialogue digest db chat_id (.conversation history .gpt35Turbo) with
          | .error e => ⟨db, [], 0, .error (.storage e)⟩
          | .ok db2 => ⟨db2, ["🕹GPT-3.5"], 0, .ok ()⟩
        else if startsWithStr msg "/gpt4" then
          match update_dialogue digest db chat_id (.conversation history .gpt4) with
          | .error e => ⟨db, [], 0, .error (.storage e)⟩
          | .ok db2 => ⟨db2, ["🕹GPT-4"], 0, .ok ()⟩
        else
          match complete history version msg with
          | .error err =>
            ⟨db, ["Error while request: " ++ err ++ ", You can try call /reset or /tail"],
              1, .error (.chatGpt err)⟩
          | .ok reply =>
            match update_dialogue digest db chat_id
                (.conversation (history ++ [⟨.user, msg⟩, ⟨.assistant, reply⟩]) version) with
            | .error e => ⟨db, [reply], 1, .error (.storage e)⟩
            | .ok db2 => ⟨db2, [reply], 1, .ok ()⟩
    | _ => ⟨db, [], 0, .error .internalError⟩

/-! ## Round-trip of the history encoding -/

theorem hexVal_hexDigitChar (n : Nat) (h : n < 16) : hexVal (hexDigitChar n) = some n := by
  interval_cases n <;> decide

theorem psb_quote (rest : List Char) : parseStringBody ('"' :: rest) = some ([], rest) := by
  rw [parseStringBody.eq_def]
  simp

theorem psb_lit (c : Char) (rest : List Char) (h1 : c ≠ '"') (h2 : c ≠ '\\')
    (h3 : ¬ c.toNat < 32) :
    parseStringBody (c :: rest) = (parseStringBody rest).map fun p => (c :: p.1, p.2) := by
  rw [parseStringBody.eq_def]
  simp [h1, h2, h3]

theorem psb_short (e ch : Char) (rest : List Char) (hu : e ≠ 'u')
    (he : shortEscape e = some ch) :
    parseStringBody ('\\' :: e :: rest) = (parseStringBody rest).map fun p => (ch :: p.1, p.2) := by
  rw [parseStringBody.eq_def]
  simp [hu, he]

theorem psb_u (a b c2 d : Char) (rest : List Char) (x y z w : Nat)
    (ha : hexVal a = some x) (hb : hexVal b = some y) (hc : hexVal c2 = some z)
    (hd : hexVal d = some w) :
    parseStringBody ('\\' :: 'u' :: a :: b :: c2 :: d :: rest) =
      (parseStringBody rest).map fun p =>
        (Char.ofNat (((x * 16 + y) * 16 + z) * 16 + w) :: p.1, p.2) := by
  simp [parseStringBody, ha, hb, hc, hd]

theorem psb_escPair (e c : Char) (l rest : List Char) (hu : e ≠ 'u')
    (he : shortEscape e = some c)
    (ih : parseStringBody (escapeString l ++ '"' :: rest) = some (l, rest)) :
    parseStringBody ('\\' :: e :: (escapeString l ++ '"' :: rest)) = some (c :: l, rest) := by
  rw [psb_short e c _ hu he, ih]
  rfl

theorem parseStringBody_escape (l rest : List Char) :
    parseStringBody (escapeString l ++ '"' :: rest) = some (l, rest) := by
  induction l with
  | nil => simpa [escapeString] using psb_quote rest
  | cons c l ih =>
    have hstep : escapeString (c :: l) ++ '"' :: rest =
        escapeChar c ++ (escapeString l ++ '"' :: rest) := by
      simp [escapeString, List.append_assoc]
    rw [hstep]
    by_cases h1 : c = '"'
    · subst h1
      rw [show escapeChar '"' = ['\\', '"'] from rfl]
      exact psb_escPair _ _ _ _ (by decide) (by decide) ih
    by_cases h2 : c = '\\'
    · subst h2
      rw [show escapeChar '\\' = ['\\', '\\'] from rfl]
      exact psb_escPair _ _ _ _ (by decide) (by decide) ih
    by_cases h3 : c = '\x08'
    · subst h3
      rw [show escapeChar '\x08' = ['\\', 'b'] from rfl]
      exact psb_escPair _ _ _ _ (by decide) (by decide) ih
    by_cases h4 : c = '\x09'
    · subst h4
      rw [show escapeChar '\x09' = ['\\', 't'] from rfl]
      exact psb_escPair _ _ _ _ (by decide) (by decide) ih
    by_cases h5 : c = '\x0a'
    · subst h5
      rw [show escapeChar '\x0a' = ['\\', 'n'] from rfl]
      exact psb_escPair _ _ _ _ (by decide) (by decide) ih
    by_cases h6 : c = '\x0c'
    · subst h6
      rw [show escapeChar '\x0c' = ['\\', 'f'] from rfl]
      exact psb_escPair _ _ _ _ (by decide) (by decide) ih
    by_cases h7 : c = '\x0d'
    · subst h7
      rw [show escapeChar '\x0d' = ['\\', 'r'] from rfl]
      exact psb_escPair _ _ _ _ (by decide) (by decide) ih
    by_cases hlt : c.toNat < 32
    · have hesc : escapeChar c =
          ['\\', 'u', '0', '0', hexDigitChar (c.toNat / 16), hexDigitChar (c.toNat % 16)] := by
        simp [escapeChar, h1, h2, h3, h4, h5, h6, h7, hlt]
      rw [hesc]
      rw [show ('\\' :: 'u' :: '0' :: '0' :: hexDigitChar (c.toNat / 16) ::
            hexDigitChar (c.toNat % 16) :: []) ++ (escapeString l ++ '"' :: rest) =
          '\\' :: 'u' :: '0' :: '0' :: hexDigitChar (c.toNat / 16) ::
            hexDigitChar (c.toNat % 16) :: (escapeString l ++ '"' :: rest) from rfl]
      rw [psb_u _ _ _ _ _ 0 0 (c.toNat / 16) (c.toNat % 16) (by decide) (by decide)
        (hexVal_hexDigitChar _ (by omega)) (hexVal_hexDigitChar _ (by omega))]
      rw [ih]
      have hval : ((0 * 16 + 0) * 16 + c.toNat / 16) * 16 + c.toNat % 16 = c.toNat := by omega
      rw [hval, Char.ofNat_toNat]
      rfl
    · have hesc : escapeChar c = [c] := by
        simp [escapeChar, h1, h2, h3, h4, h5, h6, h7, hlt]
      rw [hesc]
      rw [show [c] ++ (escapeString l ++ '"' :: rest) =
          c :: (escapeString l ++ '"' :: rest) from rfl]
      rw [psb_lit c _ h1 h2 hlt, ih]
      rfl

theorem parseJsonString_encode (l rest : List Char) :
    parseJsonString (encodeStringChars l ++ rest) = some (⟨l⟩, rest) := by
  have h : encodeStringChars l ++ rest = '"' :: (escapeString l ++ '"' :: rest) := by
    simp [encodeStringChars, List.append_assoc]
  rw [h, parseJsonString, parseStringBody_escape]
  rfl

theorem dropLit_append (lit rest : List Char) : dropLit lit (lit ++ rest) = some rest := by
  induction lit with
  | nil => rfl
  | cons p ps ih => simp [dropLit, ih]

theorem parseRole_toStr (r : Role) : parseRole r.toStr = some r := by
  cases r <;> decide

theorem parseMessage_msgChars (m : ChatMessage) (rest : List Char) :
    parseMessage (msgChars m ++ rest) = some (m, rest) := by
  have h : msgChars m ++ rest =
      roleKey ++ (encodeStringChars m.role.toStr.data ++
        (contentKey ++ (encodeStringChars m.content.data ++ ('\x7d' :: rest)))) := by
    simp [msgChars, List.append_assoc]
  have hrole : (⟨m.role.toStr.data⟩ : String) = m.role.toStr := rfl
  have hcontent : (⟨m.content.data⟩ : String) = m.content := rfl
  rw [h, parseMessage]
  simp only [dropLit_append, parseJsonString_encode, Option.some_bind, hrole, hcontent,
    parseRole_toStr]
  simp

theorem msgChars_length_pos (m : ChatMessage) : 0 < (msgChars m).length := by
  simp [msgChars, roleKey]

theorem length_le_itemsChars (ms : List ChatMessage) : ms.length ≤ (itemsChars ms).length := by
  induction ms with
  | nil => simp [itemsChars]
  | cons m ms ih =>
    cases ms with
    | nil => simpa [itemsChars] using msgChars_length_pos m
    | cons m2 ms2 =>
      have hp := msgChars_length_pos m
      rw [show itemsChars (m :: m2 :: ms2) =
          msgChars m ++ ',' :: itemsChars (m2 :: ms2) from rfl]
      simp only [List.length_append, List.length_cons] at ih ⊢
      omega

theorem parseItems_itemsChars (ms : List ChatMessage) (hne : ms ≠ []) (fuel : Nat)
    (hf : ms.length ≤ fuel) :
    parseItems fuel (itemsChars ms ++ [']']) = some (ms, [']']) := by
  induction ms generalizing fuel with
  | nil => exact absurd rfl hne
  | cons m ms ih =>
    obtain ⟨f, rfl⟩ : ∃ f, fuel = f + 1 := by
      cases fuel with
      | zero => simp at hf
      | succ f => exact ⟨f, rfl⟩
    cases ms with
    | nil =>
      rw [show itemsChars [m] = msgChars m from rfl]
      rw [parseItems]
      simp [parseMessage_msgChars]
    | cons m2 ms2 =>
      have hstep : itemsChars (m :: m2 :: ms2) ++ [']'] =
          msgChars m ++ (',' :: (itemsChars (m2 :: ms2) ++ [']'])) := by
        rw [show itemsChars (m :: m2 :: ms2) =
            msgChars m ++ ',' :: itemsChars (m2 :: ms2) from rfl]
        simp [List.append_assoc]
      rw [hstep, parseItems]
      simp only [parseMessage_msgChars, Option.some_bind]
      rw [ih (by simp) f (by simp at hf ⊢; omega)]
      rfl

theorem itemsChars_ne_nil (m : ChatMessage) (ms : List ChatMessage) :
    itemsChars (m :: ms) ≠ [] := by
  have h2 := length_le_itemsChars (m :: ms)
  simp only [List.length_cons] at h2
  intro hcon
  rw [hcon] at h2
  simp at h2

theorem parseHistory_roundtrip (h : List ChatMessage) :
    parseHistory (historyToJson h) = some h := by
  cases h with
  | nil => decide
  | cons m ms =>
    show parseHistoryAux ('[' :: (itemsChars (m :: ms) ++ [']'])) = some (m :: ms)
    rw [parseHistoryAux.eq_def]
    have hne : itemsChars (m :: ms) ++ [']'] ≠ [']'] := by
      intro hcon
      have h1 : (itemsChars (m :: ms) ++ [']']).length = ([']'] : List Char).length := by
        rw [hcon]
      have h2 := length_le_itemsChars (m :: ms)
      simp only [List.length_append, List.length_cons, List.length_nil] at h1 h2
      omega
    simp only [if_neg hne]
    have hlen : (m :: ms).length ≤ (itemsChars (m :: ms) ++ [']']).length := by
      have h2 := length_le_itemsChars (m :: ms)
      simp only [List.length_append, List.length_cons, List.length_nil] at h2 ⊢
      omega
    rw [parseItems_itemsChars (m :: ms) (by simp) _ hlen]
    rfl

/-! ## Store-level helper lemmas -/

theorem parseEngine_toStr (v : ChatGPTEngine) : parseEngine v.toStr = v := by
  cases v <;> rfl

theorem parseEngine_unknown (s : String)
    (h1 : s ≠ "gpt-3.5-turbo") (h2 : s ≠ "gpt-3.5-turbo-0301") (h3 : s ≠ "gpt-4")
    (h4 : s ≠ "gpt-4-32k") (h5 : s ≠ "gpt-4-0314") (h6 : s ≠ "gpt-4-32k-0314") :
    parseEngine s = .gpt35Turbo := by
  simp [parseEngine, h1, h2, h3, h4, h5, h6]

theorem findUser_conv_update (l : List (Int × UserRow)) (c : Int) (hj vs : String) :
    (l.map fun r =>
        if r.1 == c then (r.1, { r.2 with history := hj, version := vs }) else r).find?
        (fun r => r.1 == c) =
      (l.find? fun r => r.1 == c).map fun r =>
        (r.1, { r.2 with history := hj, version := vs }) := by
  induction l with
  | nil => rfl
  | cons r l ih =>
    simp only [List.map_cons]
    by_cases hb : (r.1 == c) = true
    · rw [if_pos hb]
      simp only [List.find?_cons, hb]
      rfl
    · have hb' : (r.1 == c) = false := by simpa using hb
      rw [if_neg hb]
      simp only [List.find?_cons, hb']
      exact ih

theorem get_some_findUser (db : Db) (chat_id : Int) (s : DialogueState)
    (h : get_dialogue db chat_id = .ok (some s)) :
    ∃ u, findUser db chat_id = some u := by
  unfold get_dialogue at h
  cases hf : findUser db chat_id with
  | none => rw [hf] at h; simp at h
  | some u => exact ⟨u, rfl⟩

theorem get_dialogue_after_conv (db : Db) (chat_id : Int) (hist : List ChatMessage)
    (ver : ChatGPTEngine) (u : Int × UserRow) (hu : findUser db chat_id = some u) :
    get_dialogue
      { db with
        users := db.users.map fun r =>
          if r.1 == chat_id then
            (r.1, { r.2 with history := historyToJson hist, version := ver.toStr })
          else r } chat_id = .ok (some (.conversation hist ver)) := by
  unfold findUser at hu
  unfold get_dialogue findUser
  rw [show ({ db with
        users := db.users.map fun r =>
          if r.1 == chat_id then
            (r.1, { r.2 with history := historyToJson hist, version := ver.toStr })
          else r } : Db).users =
      db.users.map fun r =>
        if r.1 == chat_id then
          (r.1, { r.2 with history := historyToJson hist, version := ver.toStr })
        else r from rfl]
  rw [findUser_conv_update, hu]
  simp [parseHistory_roundtrip, parseEngine_toStr]

/-! ## The claims -/

/-- C1: the claim says the verifying put of a `Registration` session with a
key outside the allow-list returns a failure distinct from a storage fault so
the user is told of the rejection. The code violates this: the guarded
INSERT simply affects zero rows and `update_dialogue` returns `Ok(())`, so
`request_api_key` takes its success branch and tells the user
"Success! You can start conversation!" although no record was created (a
following `get_dialogue` still returns `Ok(None)`). This theorem evaluates
the embedded code at that failing input. -/
theorem rejectedKeyPutReturnsOkAndReportsSuccess :
    update_dialogue (fun _ => []) ⟨[], []⟩ 1 (.registration "wrong-key") = .ok ⟨[], []⟩ ∧
    request_api_key (fun _ => []) ⟨[], []⟩ 1 (some "wrong-key") =
      ⟨⟨[], []⟩, ["Success! You can start conversation!"], .ok ()⟩ ∧
    get_dialogue (⟨[], []⟩ : Db) 1 = .ok none :=
  ⟨rfl, rfl, rfl⟩

/-- C2: for a chat identity with no record and a candidate key whose
(hash, prefix) pair is absent from the allow-list, the verifying put of a
`Registration` session leaves the database unchanged (no `Active` record is
created) and a subsequent `get_dialogue` still reports absence, the initial
`AwaitingCredential` phase. -/
theorem unregisteredKeyPutCreatesNoRecord (digest : String → List Nat) (db : Db)
    (chat_id : Int) (k : String)
    (hmiss : (digest k, pfx10 k) ∉ db.api_keys)
    (hfresh : findUser db chat_id = none) :
    update_dialogue digest db chat_id (.registration k) = .ok db ∧
    get_dialogue db chat_id = .ok none := by
  constructor
  · simp [update_dialogue, hmiss]
  · simp [get_dialogue, hfresh]

/-- Witness for C2 at a concrete input: empty allow-list, fresh chat 1,
candidate "bad-key". -/
theorem unregisteredKeyPutCreatesNoRecord_witness :
    update_dialogue (fun _ => []) ⟨[], []⟩ 1 (.registration "bad-key") = .ok ⟨[], []⟩ ∧
    get_dialogue (⟨[], []⟩ : Db) 1 = .ok none :=
  unregisteredKeyPutCreatesNoRecord (fun _ => []) ⟨[], []⟩ 1 "bad-key" (by simp) rfl

/-- C3: a key registered through `insert_api_key`, submitted verbatim by a
fresh chat identity, passes verification: the handler reports success and
`get_dialogue` afterwards reports an `Active` (`Conversation`) session with
empty history and the default model version (gpt-3.5-turbo). -/
theorem registeredKeyActivatesSession (digest : String → List Nat) (db0 : Db)
    (chat_id : Int) (k : String)
    (hfresh : findUser db0 chat_id = none) :
    (request_api_key digest (insert_api_key digest k db0) chat_id (some k)).sent =
      ["Success! You can start conversation!"] ∧
    (request_api_key digest (insert_api_key digest k db0) chat_id (some k)).result = .ok () ∧
    get_dialogue (request_api_key digest (insert_api_key digest k db0) chat_id (some k)).db
      chat_id = .ok (some (.conversation [] .gpt35Turbo)) := by
  have hmem : (digest k, pfx10 k) ∈ (insert_api_key digest k db0).api_keys := by
    simp [insert_api_key]
  have hfresh1 : findUser
      { users := db0.users, api_keys := db0.api_keys ++ [(digest k, pfx10 k)] } chat_id = none :=
    hfresh
  have hup : update_dialogue digest (insert_api_key digest k db0) chat_id (.registration k) =
      .ok { users := db0.users ++ [(chat_id, ⟨"", "[]", pfx10 k, defaultVersion⟩)],
            api_keys := db0.api_keys ++ [(digest k, pfx10 k)] } := by
    simp [update_dialogue, hmem, hfresh1, insert_api_key]
  have hget1 : get_dialogue (insert_api_key digest k db0) chat_id = .ok none := by
    have hf : findUser (insert_api_key digest k db0) chat_id = none := hfresh
    simp [get_dialogue, hf]
  have hreq : request_api_key digest (insert_api_key digest k db0) chat_id (some k) =
      ⟨{ users := db0.users ++ [(chat_id, ⟨"", "[]", pfx10 k, defaultVersion⟩)],
         api_keys := db0.api_keys ++ [(digest k, pfx10 k)] },
        ["Success! You can start conversation!"], .ok ()⟩ := by
    simp [request_api_key, hget1, hup]
  rw [hreq]
  refine ⟨rfl, rfl, ?_⟩
  have hfind2 : findUser
      { users := db0.users ++ [(chat_id, ⟨"", "[]", pfx10 k, defaultVersion⟩)],
        api_keys := db0.api_keys ++ [(digest k, pfx10 k)] } chat_id =
      some (chat_id, ⟨"", "[]", pfx10 k, defaultVersion⟩) := by
    show List.find? (fun r => r.1 == chat_id)
      (db0.users ++ [(chat_id, ⟨"", "[]", pfx10 k, defaultVersion⟩)]) = _
    rw [List.find?_append]
    unfold findUser at hfresh
    rw [hfresh]
    simp
  simp [get_dialogue, hfind2]
  rfl

/-- Witness for C3 at a concrete input: key "secret-key" registered into an
empty database and submitted by the fresh chat 1. -/
theorem registeredKeyActivatesSession_witness :
    (request_api_key (fun _ => [7]) (insert_api_key (fun _ => [7]) "secret-key" ⟨[], []⟩) 1
        (some "secret-key")).sent = ["Success! You can start conversation!"] ∧
    (request_api_key (fun _ => [7]) (insert_api_key (fun _ => [7]) "secret-key" ⟨[], []⟩) 1
        (some "secret-key")).result = .ok () ∧
    get_dialogue (request_api_key (fun _ => [7]) (insert_api_key (fun _ => [7]) "secret-key"
        ⟨[], []⟩) 1 (some "secret-key")).db 1 =
      .ok (some (.conversation [] .gpt35Turbo)) :=
  registeredKeyActivatesSession (fun _ => [7]) ⟨[], []⟩ 1 "secret-key" rfl

/-- C4: for an `Active` session and an ordinary (non-command) message, when
the completion service fails, the handler leaves the database exactly as it
was (nothing persisted), sends the user a failure notice suggesting the
recovery commands, and propagates the failure to the caller. -/
theorem completionFailurePersistsNothing (digest : String → List Nat) (db : Db)
    (chat_id : Int) (history : List ChatMessage) (version : ChatGPTEngine) (msg err : String)
    (complete : List ChatMessage → ChatGPTEngine → String → Except String String)
    (hget : get_dialogue db chat_id = .ok (some (.conversation history version)))
    (h1 : startsWithStr msg "/reset" = false) (h2 : startsWithStr msg "/tail" = false)
    (h3 : startsWithStr msg "/gpt3" = false) (h4 : startsWithStr msg "/gpt4" = false)
    (hfail : complete history version msg = .error err) :
    conversation digest db chat_id (some msg) complete =
      ⟨db, ["Error while request: " ++ err ++ ", You can try call /reset or /tail"], 1,
        .error (.chatGpt err)⟩ := by
  simp [conversation, hget, h1, h2, h3, h4, hfail]

/-- Witness for C4 at a concrete input: one active chat with empty stored
history, message "hello", completion service failing with "boom". -/
theorem completionFailurePersistsNothing_witness :
    conversation (fun _ => []) ⟨[(1, ⟨"", "[]", [], "gpt-4"⟩)], []⟩ 1 (some "hello")
        (fun _ _ _ => .error "boom") =
      ⟨⟨[(1, ⟨"", "[]", [], "gpt-4"⟩)], []⟩,
        ["Error while request: boom, You can try call /reset or /tail"], 1,
        .error (.chatGpt "boom")⟩ :=
  completionFailurePersistsNothing (fun _ => []) ⟨[(1, ⟨"", "[]", [], "gpt-4"⟩)], []⟩ 1
    [] .gpt4 "hello" "boom" (fun _ _ _ => .error "boom") rfl rfl rfl rfl rfl rfl

/-- C5: for an `Active` session with history H and an ordinary message, when
the completion service succeeds with reply X, the handler forwards X, calls
the service exactly once, succeeds, and the persisted session read back is H
extended by exactly the user turn and then the assistant turn, with the
model version unchanged. -/
theorem completionSuccessAppendsTwoTurns (digest : String → List Nat) (db : Db)
    (chat_id : Int) (history : List ChatMessage) (version : ChatGPTEngine) (msg reply : String)
    (complete : List ChatMessage → ChatGPTEngine → String → Except String String)
    (hget : get_dialogue db chat_id = .ok (some (.conversation history version)))
    (h1 : startsWithStr msg "/reset" = false) (h2 : startsWithStr msg "/tail" = false)
    (h3 : startsWithStr msg "/gpt3" = false) (h4 : startsWithStr msg "/gpt4" = false)
    (hok : complete history version msg = .ok reply) :
    (conversation digest db chat_id (some msg) complete).sent = [reply] ∧
    (conversation digest db chat_id (some msg) complete).completionCalls = 1 ∧
    (conversation digest db chat_id (some msg) complete).result = .ok () ∧
    get_dialogue (conversation digest db chat_id (some msg) complete).db chat_id =
      .ok (some (.conversation (history ++ [⟨.user, msg⟩, ⟨.assistant, reply⟩]) version)) := by
  obtain ⟨u, hu⟩ := get_some_findUser db chat_id _ hget
  have hconv : conversation digest db chat_id (some msg) complete =
      ⟨{ db with users := db.users.map fun r =>
          if r.1 == chat_id then
            (r.1, { r.2 with
                    history := historyToJson (history ++ [⟨.user, msg⟩, ⟨.assistant, reply⟩]),
                    version := version.toStr })
          else r }, [reply], 1, .ok ()⟩ := by
    simp [conversation, hget, h1, h2, h3, h4, hok, update_dialogue]
  rw [hconv]
  exact ⟨rfl, rfl, rfl, get_dialogue_after_conv db chat_id _ version u hu⟩

/-- Witness for C5 at a concrete input: active chat with empty history,
message "hello", completion service replying "X". -/
theorem completionSuccessAppendsTwoTurns_witness :
    (conversation (fun _ => []) ⟨[(1, ⟨"", "[]", [], "gpt-4"⟩)], []⟩ 1 (some "hello")
        (fun _ _ _ => .ok "X")).sent = ["X"] ∧
    (conversation (fun _ => []) ⟨[(1, ⟨"", "[]", [], "gpt-4"⟩)], []⟩ 1 (some "hello")
        (fun _ _ _ => .ok "X")).completionCalls = 1 ∧
    (conversation (fun _ => []) ⟨[(1, ⟨"", "[]", [], "gpt-4"⟩)], []⟩ 1 (some "hello")
        (fun _ _ _ => .ok "X")).result = .ok () ∧
    get_dialogue (conversation (fun _ => []) ⟨[(1, ⟨"", "[]", [], "gpt-4"⟩)], []⟩ 1
        (some "hello") (fun _ _ _ => .ok "X")).db 1 =
      .ok (some (.conversation [⟨.user, "hello"⟩, ⟨.assistant, "X"⟩] .gpt4)) :=
  completionSuccessAppendsTwoTurns (fun _ => []) ⟨[(1, ⟨"", "[]", [], "gpt-4"⟩)], []⟩ 1
    [] .gpt4 "hello" "X" (fun _ _ _ => .ok "X") rfl rfl rfl rfl rfl rfl

/-- C6: serialising any ordered sequence of turns with the store's text
encoding and deserialising it again reproduces the identical sequence: same
length, same order, each turn's role and content preserved. -/
theorem historySerializationRoundTrip (h : List ChatMessage) :
    parseHistory (historyToJson h) = some h :=
  parseHistory_roundtrip h

/-- C7: a stored record whose model-version string is outside the recognised
enumeration still loads: `get_dialogue` succeeds and resolves the version to
the default engine gpt-3.5-turbo. -/
theorem unknownVersionDefaultsToGpt35 (db : Db) (chat_id : Int) (u : Int × UserRow)
    (hist : List ChatMessage)
    (hfind : findUser db chat_id = some u)
    (hparse : parseHistory u.2.history = some hist)
    (hver : u.2.version ∉ (["gpt-3.5-turbo", "gpt-3.5-turbo-0301", "gpt-4", "gpt-4-32k",
      "gpt-4-0314", "gpt-4-32k-0314"] : List String)) :
    get_dialogue db chat_id = .ok (some (.conversation hist .gpt35Turbo)) := by
  simp only [List.mem_cons, List.not_mem_nil, or_false, not_or] at hver
  obtain ⟨h1, h2, h3, h4, h5, h6⟩ := hver
  have hpe : parseEngine u.2.version = .gpt35Turbo := parseEngine_unknown _ h1 h2 h3 h4 h5 h6
  simp [get_dialogue, hfind, hparse, hpe]

/-- Witness for C7 at a concrete input: a stored row carrying the
unrecognised version string "weird-version". -/
theorem unknownVersionDefaultsToGpt35_witness :
    get_dialogue ⟨[(1, ⟨"", "[]", [], "weird-version"⟩)], []⟩ 1 =
      .ok (some (.conversation [] .gpt35Turbo)) :=
  unknownVersionDefaultsToGpt35 ⟨[(1, ⟨"", "[]", [], "weird-version"⟩)], []⟩ 1
    (1, ⟨"", "[]", [], "weird-version"⟩) [] rfl rfl (by decide)

/-- C8: `get_dialogue` never yields the transient `Registration`
(`PendingVerification`) payload, nor `ApiKeyRequest`: a missing row is
reported as `Ok(None)` (the initial phase, not an error), and any session it
does return is a `Conversation` (`Active`) one. -/
theorem getNeverReturnsRegistration (db : Db) (chat_id : Int) :
    (findUser db chat_id = none → get_dialogue db chat_id = .ok none) ∧
    ∀ s, get_dialogue db chat_id = .ok (some s) →
      ∃ history version, s = .conversation history version := by
  constructor
  · intro h
    simp [get_dialogue, h]
  · intro s hs
    unfold get_dialogue at hs
    cases hf : findUser db chat_id with
    | none => rw [hf] at hs; simp at hs
    | some u =>
      rw [hf] at hs
      cases hp : parseHistory u.2.history with
      | none => simp [hp] at hs
      | some hist =>
        simp [hp] at hs
        exact ⟨hist, parseEngine u.2.version, hs.symm⟩

/-- Witness for C8 at a concrete input: the empty store reports absence. -/
theorem getNeverReturnsRegistration_witness :
    get_dialogue (⟨[], []⟩ : Db) 1 = .ok none :=
  (getNeverReturnsRegistration ⟨[], []⟩ 1).1 rfl

/-- C9: an `Active` session with non-empty history receiving a reset command
persists an `Active` session with empty history and the same model version,
acknowledges with the reset message, succeeds, and never invokes the
completion service. -/
theorem resetClearsHistoryKeepsVersion (digest : String → List Nat) (db : Db)
    (chat_id : Int) (history : List ChatMessage) (version : ChatGPTEngine) (msg : String)
    (complete : List ChatMessage → ChatGPTEngine → String → Except String String)
    (hget : get_dialogue db chat_id = .ok (some (.conversation history version)))
    (_hne : history ≠ [])
    (hmsg : startsWithStr msg "/reset" = true) :
    (conversation digest db chat_id (some msg) complete).sent = ["✖️ History Reseted"] ∧
    (conversation digest db chat_id (some msg) complete).completionCalls = 0 ∧
    (conversation digest db chat_id (some msg) complete).result = .ok () ∧
    get_dialogue (conversation digest db chat_id (some msg) complete).db chat_id =
      .ok (some (.conversation [] version)) := by
  obtain ⟨u, hu⟩ := get_some_findUser db chat_id _ hget
  have hconv : conversation digest db chat_id (some msg) complete =
      ⟨{ db with users := db.users.map fun r =>
          if r.1 == chat_id then
            (r.1, { r.2 with history := historyToJson [], version := version.toStr })
          else r }, ["✖️ History Reseted"], 0, .ok ()⟩ := by
    simp [conversation, hget, hmsg, update_dialogue]
  rw [hconv]
  exact ⟨rfl, rfl, rfl, get_dialogue_after_conv db chat_id [] version u hu⟩

/-- Witness for C9 at the spec's scenario B input: stored history
[user "hi", assistant "hello"], version gpt-4, message "/reset". -/
theorem resetClearsHistoryKeepsVersion_witness :
    (conversation (fun _ => [])
        ⟨[(1, ⟨"", historyToJson [⟨.user, "hi"⟩, ⟨.assistant, "hello"⟩], [], "gpt-4"⟩)], []⟩ 1
        (some "/reset") (fun _ _ _ => .ok "X")).sent = ["✖️ History Reseted"] ∧
    (conversation (fun _ => [])
        ⟨[(1, ⟨"", historyToJson [⟨.user, "hi"⟩, ⟨.assistant, "hello"⟩], [], "gpt-4"⟩)], []⟩ 1
        (some "/reset") (fun _ _ _ => .ok "X")).completionCalls = 0 ∧
    (conversation (fun _ => [])
        ⟨[(1, ⟨"", historyToJson [⟨.user, "hi"⟩, ⟨.assistant, "hello"⟩], [], "gpt-4"⟩)], []⟩ 1
        (some "/reset") (fun _ _ _ => .ok "X")).result = .ok () ∧
    get_dialogue (conversation (fun _ => [])
        ⟨[(1, ⟨"", historyToJson [⟨.user, "hi"⟩, ⟨.assistant, "hello"⟩], [], "gpt-4"⟩)], []⟩ 1
        (some "/reset") (fun _ _ _ => .ok "X")).db 1 =
      .ok (some (.conversation [] .gpt4)) :=
  resetClearsHistoryKeepsVersion (fun _ => [])
    ⟨[(1, ⟨"", historyToJson [⟨.user, "hi"⟩, ⟨.assistant, "hello"⟩], [], "gpt-4"⟩)], []⟩ 1
    [⟨.user, "hi"⟩, ⟨.assistant, "hello"⟩] .gpt4 "/reset" (fun _ _ _ => .ok "X")
    rfl (by decide) rfl

/-- C10: the store's put of the initial `ApiKeyRequest` (`AwaitingCredential`)
phase writes nothing at all — the database is returned unchanged — and
always succeeds. -/
theorem apiKeyRequestPutIsNoOp (digest : String → List Nat) (db : Db) (chat_id : Int) :
    update_dialogue digest db chat_id .apiKeyRequest = .ok db :=
  rfl
